import Mathlib

/-!
Verification of the SQLToken linked-list core of the sql-metadata
repository (src/sql_metadata/token.py) against its natural-language
specification.

Modelling conventions (a shallow embedding of the Python source):
* Python strings are modelled through their character lists (a Lean
  `String` wraps a `List Char`); `str.strip(chars)`, `str.split(sep)`,
  `str.translate(... delete ...)` and `str.upper()` are reimplemented
  below with Python's semantics.
* Python `None` is `Option.none`; a raised exception is `Except.error`.
* An `SQLToken` object graph is a tree: every token carries its backward
  chain and its forward chain.  No function of token.py ever follows a
  forward link after moving backward (or vice versa), so a neighbour
  stored inside a chain view keeps its pre-wiring default link on the
  far side.
* The dynamic `value_attribute` string of `find_nearest_token` is
  modelled as a selector function returning a `PyVal` (a Python value of
  type `str` or `bool`), as the specification's design notes direct.
-/

/-- The backtick character, written by code point to keep the source free
of backtick literals. -/
def backtick : Char := Char.ofNat 96

/-- The double-quote character, written by code point. -/
def dquote : Char := Char.ofNat 34

/-- Python `str.strip(chars)` on a character list: remove every leading
and every trailing character that belongs to `chars`. -/
def pyStripList (l : List Char) (chars : List Char) : List Char :=
  ((l.dropWhile (chars.contains ·)).reverse.dropWhile (chars.contains ·)).reverse

/-- Python `str.strip(chars)`. -/
def pyStrip (s : String) (chars : List Char) : String :=
  String.mk (pyStripList s.toList chars)

/-- Python `str.translate(str.maketrans("", "", del))`: delete every
occurrence of a character of `del`. -/
def pyTranslateDelete (s : String) (del : List Char) : String :=
  String.mk (s.toList.filter (fun c => !(del.contains c)))

/-- Python `str.upper()`, modelled characterwise. -/
def pyUpper (s : String) : String :=
  String.mk (s.toList.map Char.toUpper)

/-- The deletion set `" \n\t\r"` used by `normalized` and
`last_keyword_normalized`. -/
def pyWhitespaceDel : List Char := [' ', '\n', '\t', '\r']

/-- Python `str.split(sep)` for a one-character separator, on character
lists; `acc` is the reversed current segment. -/
def pySplitChars (sep : Char) : List Char → List Char → List (List Char)
  | acc, [] => [acc.reverse]
  | acc, c :: rest =>
    if c == sep then acc.reverse :: pySplitChars sep [] rest
    else pySplitChars sep (c :: acc) rest

/-- Python `str.split(sep)` for a one-character separator. -/
def pySplit (s : String) (sep : Char) : List String :=
  (pySplitChars sep [] s.toList).map String.mk

/-- Python `dict.get(key, default)` over an association list. -/
def pyDictGet (d : List (String × String)) (key dflt : String) : String :=
  match d.find? (fun kv => kv.1 == key) with
  | some kv => kv.2
  | none => dflt

/-- Model of the sqlparse token-type tree (`sqlparse.tokens`): token
types compare by identity and expose a `parent`.  Only the parts of the
tree consulted by token.py are distinguished; `sub` names a child such
as `Name.Builtin` or `Comment.Single`. -/
inductive TType where
  | Token
  | Name
  | NameChild (sub : String)
  | Punctuation
  | Wildcard
  | Literal
  | Number
  | NumberInteger
  | NumberFloat
  | Comment
  | CommentChild (sub : String)
  | Keyword
  | KeywordChild (sub : String)
  | Whitespace
deriving DecidableEq, Repr

/-- The `parent` attribute of a sqlparse token type, per the tree of
`sqlparse.tokens` (`Number = Token.Literal.Number`, children of `Name`,
`Comment`, `Keyword` and the rest are direct children of `Token`). -/
def TType.parent : TType → Option TType
  | .Token => none
  | .Name => some .Token
  | .NameChild _ => some .Name
  | .Punctuation => some .Token
  | .Wildcard => some .Token
  | .Literal => some .Token
  | .Number => some .Literal
  | .NumberInteger => some .Number
  | .NumberFloat => some .Number
  | .Comment => some .Token
  | .CommentChild _ => some .Comment
  | .Keyword => some .Token
  | .KeywordChild _ => some .Keyword
  | .Whitespace => some .Token

/-- A raw lexer token as delivered by sqlparse: its text (`tok.value`,
which is also `str(tok)`), the tokenizer's keyword mark
(`tok.is_keyword`) and its token type (`tok.ttype`). -/
structure RawToken where
  value : String
  is_keyword : Bool
  ttype : TType
deriving DecidableEq, Repr

/-- A Python value of type `str` or `bool`, the payload compared by
`find_nearest_token` (Python `==` across these two types is always
false). -/
inductive PyVal where
  | str (s : String)
  | bool (b : Bool)
deriving DecidableEq, Repr

/-- The `value` argument of `find_nearest_token`: a single value or a
list of values (`if not isinstance(value, list): value = [value]`). -/
inductive FindValue where
  | single (v : PyVal)
  | list (vs : List PyVal)
deriving DecidableEq, Repr

/-- Normalisation performed at the top of `find_nearest_token`. -/
def FindValue.toList : FindValue → List PyVal
  | .single v => [v]
  | .list vs => vs

/-- The exceptions token.py can raise: the `assert level >= 1` of
`get_nth_previous` and the `ValueError` of `table_prefixed_column`. -/
inductive PyError where
  | assertionError
  | valueError (msg : String)
deriving DecidableEq, Repr

/-- The parenthesis-scope flags set by `_set_default_parenthesis_status`
and later mutated only by the external builder. -/
structure ParenStatus where
  is_in_nested_function : Bool
  is_subquery_start : Bool
  is_subquery_end : Bool
  is_with_query_start : Bool
  is_with_query_end : Bool
  is_with_columns_start : Bool
  is_with_columns_end : Bool
  is_nested_function_start : Bool
  is_nested_function_end : Bool
  is_column_definition_start : Bool
  is_column_definition_end : Bool
deriving DecidableEq, Repr

/-- Model of `_set_default_parenthesis_status`: every scope flag false. -/
def defaultParenthesisStatus : ParenStatus :=
  { is_in_nested_function := false
    is_subquery_start := false
    is_subquery_end := false
    is_with_query_start := false
    is_with_query_end := false
    is_with_columns_start := false
    is_with_columns_end := false
    is_nested_function_start := false
    is_nested_function_end := false
    is_column_definition_start := false
    is_column_definition_end := false }

/-- The non-link fields of an `SQLToken`. -/
structure TokenData where
  position : Int
  value : String
  is_keyword : Bool
  is_name : Bool
  is_punctuation : Bool
  is_dot : Bool
  is_wildcard : Bool
  is_integer : Bool
  is_float : Bool
  is_comment : Bool
  is_left_parenthesis : Bool
  is_right_parenthesis : Bool
  last_keyword : Option String
  subquery_level : Int
  paren : ParenStatus
deriving DecidableEq, Repr

/-- An `SQLToken`: its fields together with the `previous_token` and
`next_token` links (`none` models Python `None`, the state only the
sentinel's links are ever in). -/
inductive SQLToken where
  | mk (data : TokenData) (previous_token next_token : Option SQLToken)

/-- The field record of a token. -/
def SQLToken.data : SQLToken → TokenData
  | .mk d _ _ => d

/-- The `previous_token` link. -/
def SQLToken.previous_token : SQLToken → Option SQLToken
  | .mk _ p _ => p

/-- The `next_token` link. -/
def SQLToken.next_token : SQLToken → Option SQLToken
  | .mk _ _ n => n

/-- The `value` attribute. -/
def SQLToken.value (t : SQLToken) : String := t.data.value

/-- The `position` attribute. -/
def SQLToken.position (t : SQLToken) : Int := t.data.position

/-- The `is_keyword` attribute. -/
def SQLToken.is_keyword (t : SQLToken) : Bool := t.data.is_keyword

/-- The `is_name` attribute. -/
def SQLToken.is_name (t : SQLToken) : Bool := t.data.is_name

/-- The `is_punctuation` attribute. -/
def SQLToken.is_punctuation (t : SQLToken) : Bool := t.data.is_punctuation

/-- The `is_dot` attribute. -/
def SQLToken.is_dot (t : SQLToken) : Bool := t.data.is_dot

/-- The `is_wildcard` attribute. -/
def SQLToken.is_wildcard (t : SQLToken) : Bool := t.data.is_wildcard

/-- The `is_integer` attribute. -/
def SQLToken.is_integer (t : SQLToken) : Bool := t.data.is_integer

/-- The `is_float` attribute. -/
def SQLToken.is_float (t : SQLToken) : Bool := t.data.is_float

/-- The `is_comment` attribute. -/
def SQLToken.is_comment (t : SQLToken) : Bool := t.data.is_comment

/-- The `is_left_parenthesis` attribute. -/
def SQLToken.is_left_parenthesis (t : SQLToken) : Bool := t.data.is_left_parenthesis

/-- The `is_right_parenthesis` attribute. -/
def SQLToken.is_right_parenthesis (t : SQLToken) : Bool := t.data.is_right_parenthesis

/-- The `last_keyword` attribute (`none` models Python `None`). -/
def SQLToken.last_keyword (t : SQLToken) : Option String := t.data.last_keyword

/-- The `subquery_level` attribute. -/
def SQLToken.subquery_level (t : SQLToken) : Int := t.data.subquery_level

/-- The `is_subquery_start` scope flag. -/
def SQLToken.is_subquery_start (t : SQLToken) : Bool := t.data.paren.is_subquery_start

/-- The `is_subquery_end` scope flag. -/
def SQLToken.is_subquery_end (t : SQLToken) : Bool := t.data.paren.is_subquery_end

/-- The `is_with_query_start` scope flag. -/
def SQLToken.is_with_query_start (t : SQLToken) : Bool := t.data.paren.is_with_query_start

/-- The `is_with_query_end` scope flag. -/
def SQLToken.is_with_query_end (t : SQLToken) : Bool := t.data.paren.is_with_query_end

/-- The `is_with_columns_start` scope flag. -/
def SQLToken.is_with_columns_start (t : SQLToken) : Bool := t.data.paren.is_with_columns_start

/-- The `is_with_columns_end` scope flag. -/
def SQLToken.is_with_columns_end (t : SQLToken) : Bool := t.data.paren.is_with_columns_end

/-- The `is_nested_function_start` scope flag. -/
def SQLToken.is_nested_function_start (t : SQLToken) : Bool := t.data.paren.is_nested_function_start

/-- The `is_nested_function_end` scope flag. -/
def SQLToken.is_nested_function_end (t : SQLToken) : Bool := t.data.paren.is_nested_function_end

/-- The `is_in_nested_function` scope flag. -/
def SQLToken.is_in_nested_function (t : SQLToken) : Bool := t.data.paren.is_in_nested_function

/-- The `is_column_definition_start` scope flag. -/
def SQLToken.is_column_definition_start (t : SQLToken) : Bool := t.data.paren.is_column_definition_start

/-- The `is_column_definition_end` scope flag. -/
def SQLToken.is_column_definition_end (t : SQLToken) : Bool := t.data.paren.is_column_definition_end

/-- The field record produced by `_set_default_values` (with the default
`index = -1` already stored in `position`): empty value, every
classification flag false, no last keyword, level 0. -/
def emptyTokenData : TokenData :=
  { position := -1
    value := ""
    is_keyword := false
    is_name := false
    is_punctuation := false
    is_dot := false
    is_wildcard := false
    is_integer := false
    is_float := false
    is_comment := false
    is_left_parenthesis := false
    is_right_parenthesis := false
    last_keyword := none
    subquery_level := 0
    paren := defaultParenthesisStatus }

/-- `EmptyToken`, the sentinel: the parameterless construction
`SQLToken()`, which runs `_set_default_values` and leaves both links
`None`. -/
def EmptyToken : SQLToken := SQLToken.mk emptyTokenData none none

/-- The field record computed by `__init__` for a raw lexer token `tok`:
quote stripping (`tok.value.strip()` of backticks, then of double
quotes), classification from `tok` (`str(tok)` is `tok.value` for a
sqlparse token), the builder-supplied context, and the all-false scope
flags from `_set_default_parenthesis_status`. -/
def SQLToken.initData (tok : RawToken) (index : Int) (subquery_level : Int)
    (last_keyword : Option String) : TokenData :=
  { position := index
    value := pyStrip (pyStrip tok.value [backtick]) [dquote]
    is_keyword := tok.is_keyword
      || (decide (tok.ttype.parent = some TType.Name) && decide (tok.ttype ≠ TType.Name))
    is_name := decide (tok.ttype = TType.Name)
    is_punctuation := decide (tok.ttype = TType.Punctuation)
    is_dot := tok.value == "."
    is_wildcard := decide (tok.ttype = TType.Wildcard)
    is_integer := decide (tok.ttype = TType.NumberInteger)
    is_float := decide (tok.ttype = TType.NumberFloat)
    is_comment := decide (tok.ttype = TType.Comment)
      || decide (tok.ttype.parent = some TType.Comment)
    is_left_parenthesis := tok.value == "("
    is_right_parenthesis := tok.value == ")"
    last_keyword := last_keyword
    subquery_level := subquery_level
    paren := defaultParenthesisStatus }

/-- Model of `__init__` with a raw lexer token (`tok is not None`): the
fields of `initData`, and both links initialised to `EmptyToken`. -/
def SQLToken.init (tok : RawToken) (index : Int) (subquery_level : Int)
    (last_keyword : Option String) : SQLToken :=
  SQLToken.mk (SQLToken.initData tok index subquery_level last_keyword)
    (some EmptyToken) (some EmptyToken)

/-- Model of `__str__`: the value with surrounding double quotes
stripped. -/
def SQLToken.str (t : SQLToken) : String := pyStrip t.value [dquote]

/-- The `normalized` property: uppercase value with the characters of
`" \n\t\r"` deleted. -/
def SQLToken.normalized (t : SQLToken) : String :=
  pyUpper (pyTranslateDelete t.value pyWhitespaceDel)

/-- The `last_keyword_normalized` property: the same normalisation
applied to `last_keyword`; the empty string when `last_keyword` is falsy
(`None` or empty). -/
def SQLToken.last_keyword_normalized (t : SQLToken) : String :=
  match t.last_keyword with
  | some lk => if lk == "" then "" else pyUpper (pyTranslateDelete lk pyWhitespaceDel)
  | none => ""

/-- Modelled from the spec: the fixed function ignore-list consulted by
`stringified_token` (`FUNCTIONS_IGNORED` from
`sql_metadata.keywords_lists`, a module that is not among the modelled
sources).  The spec fixes only that it is a fixed list of function
names; a representative fixed list of aggregate and conversion function
names stands in for it. -/
def FUNCTIONS_IGNORED : List String :=
  ["COALESCE", "CONVERT", "CAST", "SUM", "COUNT", "MIN", "MAX", "AVG", "LOWER", "UPPER"]

/-- The `stringified_token` property: the string representation,
preceded by a space unless the token or its predecessor makes the space
unwanted.  The `match` mirrors `if self.previous_token:` (an `SQLToken`
instance is always truthy; only `None` is falsy). -/
def SQLToken.stringified_token (t : SQLToken) : String :=
  match t.previous_token with
  | some prev =>
    if t.normalized ∈ [")", ".", ","] ∨ prev.normalized ∈ ["(", "."]
        ∨ (t.is_left_parenthesis = true ∧ prev.normalized ∈ FUNCTIONS_IGNORED) then
      t.str
    else " " ++ t.str
  | none => t.str

/-- The `get_nth_previous(level)` method.  `assert level >= 1` is the
`Except.error PyError.assertionError` branch; otherwise the walk follows
`previous_token` (`if self.previous_token:` — present links are truthy),
recursing with `level - 1` while `level > 1` and falling back to
`EmptyToken` at an absent link. -/
def SQLToken.get_nth_previous : SQLToken → Int → Except PyError SQLToken
  | SQLToken.mk _ none _, level =>
    if 1 ≤ level then Except.ok EmptyToken else Except.error PyError.assertionError
  | SQLToken.mk _ (some p) _, level =>
    if 1 ≤ level then
      if 1 < level then p.get_nth_previous (level - 1) else Except.ok p
    else Except.error PyError.assertionError

/-- The loop of the `left_expanded` property.  The Python loop runs
while `token.previous_token` is present and `is_dot`, prepends
`str(two_back) ++ "."` when the token two hops back (which
`get_nth_previous(2)` computes as the predecessor's predecessor, or
`EmptyToken` — see `get_nth_previous_two`) `is_name`, and re-centers on
that token.  When the second hop is exhausted the Python loop sets
`token = EmptyToken`, whose absent backward link ends the loop on the
next test with no further change to the value; that case is the second
equation. -/
def SQLToken.left_expandedLoop : SQLToken → String → String
  | SQLToken.mk _ none _, value => value
  | SQLToken.mk _ (some (SQLToken.mk _ none _)) _, value => value
  | SQLToken.mk _ (some (SQLToken.mk pd (some q) _)) _, value =>
    if pd.is_dot then
      q.left_expandedLoop (if q.is_name then q.str ++ "." ++ value else value)
    else value

/-- The `left_expanded` property: the loop starting from `str(self)`,
then trailing and leading backticks stripped from the result. -/
def SQLToken.left_expanded (t : SQLToken) : String :=
  pyStrip (t.left_expandedLoop t.str) [backtick]

/-- The backward walk of `find_nearest_token` when the chosen attribute
is `previous_token`: compare the selected attribute of each predecessor
against the target values, returning the first hit, or `EmptyToken` when
an absent link is reached. -/
def SQLToken.findPrevMatch : SQLToken → (SQLToken → PyVal) → List PyVal → SQLToken
  | SQLToken.mk _ none _, _, _ => EmptyToken
  | SQLToken.mk _ (some p) _, value_attribute, vs =>
    if value_attribute p ∈ vs then p else p.findPrevMatch value_attribute vs

/-- The forward walk of `find_nearest_token` when the chosen attribute
is `next_token`. -/
def SQLToken.findNextMatch : SQLToken → (SQLToken → PyVal) → List PyVal → SQLToken
  | SQLToken.mk _ _ none, _, _ => EmptyToken
  | SQLToken.mk _ _ (some n), value_attribute, vs =>
    if value_attribute n ∈ vs then n else n.findNextMatch value_attribute vs

/-- The `find_nearest_token(value, direction, value_attribute)` method:
normalise `value` to a list, pick the link to follow
(`"previous_token" if direction == "left" else "next_token"`), and walk
until a neighbour's selected attribute is among the targets or an
absent link is reached. -/
def SQLToken.find_nearest_token (t : SQLToken) (value : FindValue) (direction : String)
    (value_attribute : SQLToken → PyVal) : SQLToken :=
  let vs := value.toList
  if direction == "left" then t.findPrevMatch value_attribute vs
  else t.findNextMatch value_attribute vs

/-- The default `value_attribute="value"` of `find_nearest_token`. -/
def attrValue : SQLToken → PyVal := fun t => PyVal.str t.value

/-- The `is_in_parenthesis` property: some `"("` somewhere to the left
and some `")"` somewhere to the right. -/
def SQLToken.is_in_parenthesis (t : SQLToken) : Bool :=
  let left_parenthesis := t.find_nearest_token (FindValue.single (PyVal.str "(")) "left" attrValue
  let right_parenthesis := t.find_nearest_token (FindValue.single (PyVal.str ")")) "right" attrValue
  decide (left_parenthesis.value ≠ "") && decide (right_parenthesis.value ≠ "")

/-- The `is_alias_without_as` property.  Python evaluates the four
`and`-ed conditions left to right: the first dereferences `next_token`,
the second dereferences `previous_token`; an absent link there raises
(`none` here), and short-circuiting means a false first condition
returns `False` without touching `previous_token`. -/
def SQLToken.is_alias_without_as (t : SQLToken) : Option Bool :=
  match t.next_token with
  | none => none
  | some nt =>
    if nt.normalized ∈ ([",", "FROM"] : List String) then
      match t.previous_token with
      | none => none
      | some pt =>
        some (decide (pt.normalized ∉ ([",", ".", "(", "SELECT"] : List String))
          && decide (t.last_keyword_normalized = "SELECT")
          && !pt.is_comment)
    else some false

/-- The `is_in_with_columns` property: the nearest `"("` to the left is
a with-columns start and the nearest `")"` to the right is a
with-columns end. -/
def SQLToken.is_in_with_columns (t : SQLToken) : Bool :=
  (t.find_nearest_token (FindValue.single (PyVal.str "(")) "left" attrValue).is_with_columns_start
    && (t.find_nearest_token (FindValue.single (PyVal.str ")")) "right" attrValue).is_with_columns_end

/-- The `table_prefixed_column(table_aliases)` method: when the
left-expanded value contains a dot, split on dots, raise `ValueError`
for more than three parts, replace the first part through the alias
mapping (`table_aliases.get(parts[0], parts[0])`) and rejoin; a value
without a dot is returned unchanged.  The empty-parts branch is
unreachable: `split` always returns at least one part. -/
def SQLToken.table_prefixed_column (t : SQLToken) (table_aliases : List (String × String)) :
    Except PyError String :=
  let value := t.left_expanded
  if value.toList.contains '.' then
    let parts := pySplit value '.'
    if parts.length > 3 then
      Except.error (PyError.valueError ("Wrong columns name: " ++ value))
    else
      match parts with
      | [] => Except.ok value
      | p0 :: rest => Except.ok (String.intercalate "." (pyDictGet table_aliases p0 p0 :: rest))
  else Except.ok value

/-- Specification reading of `table_prefixed_column`, written from the
spec's words for comparison with the implementation: split the
left-expanded value on dots, fail when more than three segments are
present, rewrite the first segment through the alias mapping (aliases
absent from the mapping pass through unchanged), rejoin. -/
def tablePrefixedColumnSpecFn (value : String) (table_aliases : List (String × String)) :
    Except PyError String :=
  let parts := pySplit value '.'
  if parts.length > 3 then
    Except.error (PyError.valueError ("Wrong columns name: " ++ value))
  else
    match parts with
    | [] => Except.ok value
    | p0 :: rest => Except.ok (String.intercalate "." (pyDictGet table_aliases p0 p0 :: rest))

/-- The list of tokens reachable by repeatedly following
`previous_token`, ending where a link is absent. -/
def SQLToken.prevChain : SQLToken → List SQLToken
  | SQLToken.mk _ none _ => []
  | SQLToken.mk _ (some p) _ => p :: p.prevChain

/-- The list of tokens reachable by repeatedly following `next_token`. -/
def SQLToken.nextChain : SQLToken → List SQLToken
  | SQLToken.mk _ _ none => []
  | SQLToken.mk _ _ (some n) => n :: n.nextChain

/-- One raw token of a builder input together with the context the
external builder assigns to it. -/
structure BuildEntry where
  tok : RawToken
  last_keyword : Option String
  subquery_level : Int

/-- The backward chain view over the (reversed) data of the tokens
before a position; the chain below the first token ends at the sentinel,
whose own links are absent.  A neighbour nested inside the view keeps
the pre-wiring default forward link, which no backward traversal of
token.py ever reads. -/
def buildPrevView : List TokenData → Option SQLToken
  | [] => some EmptyToken
  | d :: rest => some (SQLToken.mk d (buildPrevView rest) (some EmptyToken))

/-- The forward chain view over the data of the tokens after a
position. -/
def buildNextView : List TokenData → Option SQLToken
  | [] => some EmptyToken
  | d :: rest => some (SQLToken.mk d (some EmptyToken) (buildNextView rest))

/-- Walk of the builder over the token data, accumulating the reversed
prefix. -/
def buildChainGo : List TokenData → List TokenData → List SQLToken
  | _, [] => []
  | before, d :: after =>
    SQLToken.mk d (buildPrevView before) (buildNextView after) :: buildChainGo (d :: before) after

/-- Modelled from the spec: the external Stream Builder, which is not
part of token.py.  In one linear pass it constructs the tokens in
original order via `__init__` (positions 0, 1, ...), with the
last-keyword and subquery-level context it computed, and wires
`previous_token`/`next_token` into a doubly linked chain terminated at
both ends by the sentinel (the first token's backward link and the last
token's forward link keep their `EmptyToken` default). -/
def buildChain (entries : List BuildEntry) : List SQLToken :=
  buildChainGo []
    (entries.enum.map (fun pe => SQLToken.initData pe.2.tok (Int.ofNat pe.1) pe.2.subquery_level pe.2.last_keyword))

/-- Token data for handmade test tokens: a value and a position, every
flag false, no context. -/
def mkData (v : String) (pos : Int) : TokenData :=
  { position := pos
    value := v
    is_keyword := false
    is_name := false
    is_punctuation := false
    is_dot := false
    is_wildcard := false
    is_integer := false
    is_float := false
    is_comment := false
    is_left_parenthesis := false
    is_right_parenthesis := false
    last_keyword := none
    subquery_level := 0
    paren := defaultParenthesisStatus }

/-- Raw token sequence of `a.b.c`: three names joined by two dots. -/
def c5Entries : List BuildEntry :=
  [ ⟨⟨"a", false, TType.Name⟩, some "SELECT", 0⟩
  , ⟨⟨".", false, TType.Punctuation⟩, some "SELECT", 0⟩
  , ⟨⟨"b", false, TType.Name⟩, some "SELECT", 0⟩
  , ⟨⟨".", false, TType.Punctuation⟩, some "SELECT", 0⟩
  , ⟨⟨"c", false, TType.Name⟩, some "SELECT", 0⟩ ]

/-- Raw token sequence of `SELECT col alias FROM t`. -/
def c7Entries : List BuildEntry :=
  [ ⟨⟨"SELECT", true, TType.KeywordChild "DML"⟩, none, 0⟩
  , ⟨⟨"col", false, TType.Name⟩, some "SELECT", 0⟩
  , ⟨⟨"alias", false, TType.Name⟩, some "SELECT", 0⟩
  , ⟨⟨"FROM", true, TType.Keyword⟩, some "SELECT", 0⟩
  , ⟨⟨"t", false, TType.Name⟩, some "FROM", 0⟩ ]

/-- Raw token sequence of `SELECT a,b`. -/
def c8Entries : List BuildEntry :=
  [ ⟨⟨"SELECT", true, TType.KeywordChild "DML"⟩, none, 0⟩
  , ⟨⟨"a", false, TType.Name⟩, some "SELECT", 0⟩
  , ⟨⟨",", false, TType.Punctuation⟩, some "SELECT", 0⟩
  , ⟨⟨"b", false, TType.Name⟩, some "SELECT", 0⟩ ]

/-- A raw lexer token whose backticks sit inside double quotes. -/
def rawQuotedBacktick : RawToken := ⟨"\"" ++ String.mk [backtick] ++ "x" ++ String.mk [backtick] ++ "\"", false, TType.Name⟩

/-- A raw lexer token for a bare name `al`. -/
def rawAl : RawToken := ⟨"al", false, TType.Name⟩

/-- A raw lexer token for the dotted name `al.col`. -/
def rawAlCol : RawToken := ⟨"al.col", false, TType.Name⟩

/-- A raw lexer token for the four-segment name `a.b.c.d`. -/
def rawAbcd : RawToken := ⟨"a.b.c.d", false, TType.Name⟩

/-- A left neighbour with value `v` for the direction counterexample. -/
def tLeftNbr : SQLToken := SQLToken.mk (mkData "v" 0) none none

/-- A right neighbour, also with value `v` but at another position. -/
def tRightNbr : SQLToken := SQLToken.mk (mkData "v" 2) none none

/-- A token sitting between `tLeftNbr` and `tRightNbr`. -/
def tMid : SQLToken := SQLToken.mk (mkData "m" 1) (some tLeftNbr) (some tRightNbr)

/-- Head of a `dropWhile` never satisfies the dropped predicate. -/
theorem head?_dropWhile_false {α : Type} (p : α → Bool) :
    ∀ (l : List α) (c : α), (l.dropWhile p).head? = some c → p c = false
  | [], c, h => by simp [List.dropWhile] at h
  | a :: rest, c, h => by
    by_cases hp : p a = true
    · rw [List.dropWhile_cons_of_pos hp] at h
      exact head?_dropWhile_false p rest c h
    · rw [List.dropWhile_cons_of_neg hp] at h
      simp at h
      subst h
      simpa using hp

/-- A nonempty `dropWhile` keeps the last element of the list. -/
theorem getLast?_dropWhile_ne {α : Type} (p : α → Bool) :
    ∀ (l : List α), l.dropWhile p ≠ [] → (l.dropWhile p).getLast? = l.getLast?
  | [], h => by simp [List.dropWhile] at h
  | a :: rest, h => by
    by_cases hp : p a = true
    · rw [List.dropWhile_cons_of_pos hp] at h ⊢
      have hrest : rest ≠ [] := by
        intro he
        subst he
        simp [List.dropWhile] at h
      rw [getLast?_dropWhile_ne p rest h]
      cases rest with
      | nil => exact absurd rfl hrest
      | cons b bs => simp [List.getLast?_cons_cons]
    · rw [List.dropWhile_cons_of_neg hp]

/-- When the head fails the predicate, `dropWhile` is the identity. -/
theorem dropWhile_eq_self_of_head? {α : Type} (p : α → Bool) (l : List α)
    (h : ∀ c, l.head? = some c → p c = false) : l.dropWhile p = l := by
  cases l with
  | nil => rfl
  | cons a rest =>
    have := h a rfl
    rw [List.dropWhile_cons_of_neg (by simp [this])]

/-- The head of a stripped list is not a stripped character. -/
theorem pyStripList_head?_not (l chars : List Char) (c : Char)
    (h : (pyStripList l chars).head? = some c) : chars.contains c = false := by
  unfold pyStripList at h
  rw [List.head?_reverse] at h
  have hne : (l.dropWhile (chars.contains ·)).reverse.dropWhile (chars.contains ·) ≠ [] := by
    intro he
    rw [he] at h
    simp at h
  rw [getLast?_dropWhile_ne _ _ hne, List.getLast?_reverse] at h
  exact head?_dropWhile_false _ _ _ h

/-- The last element of a stripped list is not a stripped character. -/
theorem pyStripList_getLast?_not (l chars : List Char) (c : Char)
    (h : (pyStripList l chars).getLast? = some c) : chars.contains c = false := by
  unfold pyStripList at h
  rw [List.getLast?_reverse] at h
  exact head?_dropWhile_false _ _ _ h

/-- Stripping characters that occur at neither end changes nothing. -/
theorem pyStripList_eq_self (l chars : List Char)
    (hh : ∀ c, l.head? = some c → chars.contains c = false)
    (hl : ∀ c, l.getLast? = some c → chars.contains c = false) :
    pyStripList l chars = l := by
  unfold pyStripList
  rw [dropWhile_eq_self_of_head? _ l hh]
  rw [dropWhile_eq_self_of_head? _ l.reverse (fun c hc => hl c (by rwa [List.head?_reverse] at hc))]
  exact List.reverse_reverse l

/-- Stripping at the string level changes nothing when neither end holds
a stripped character. -/
theorem pyStrip_eq_self (s : String) (chars : List Char)
    (hh : ∀ c, s.toList.head? = some c → chars.contains c = false)
    (hl : ∀ c, s.toList.getLast? = some c → chars.contains c = false) :
    pyStrip s chars = s := by
  unfold pyStrip
  rw [pyStripList_eq_self s.toList chars hh hl]
  rfl

/-- The deleted-character set of `normalized` is exactly the whitespace
predicate of the proof environment (space, tab, carriage return,
newline). -/
theorem pyWhitespaceDel_contains (c : Char) : pyWhitespaceDel.contains c = c.isWhitespace := by
  by_cases h1 : c = ' '
  · subst h1; rfl
  by_cases h2 : c = '\t'
  · subst h2; rfl
  by_cases h3 : c = '\r'
  · subst h3; rfl
  by_cases h4 : c = '\n'
  · subst h4; rfl
  simp [pyWhitespaceDel, List.contains, List.elem_eq_mem, Char.isWhitespace, h1, h2, h3, h4]

/-- The normalisation pipeline deletes exactly the whitespace characters
and uppercases the rest. -/
theorem pyNormalize_eq (s : String) :
    pyUpper (pyTranslateDelete s pyWhitespaceDel)
      = String.mk ((s.toList.filter (fun c => !c.isWhitespace)).map Char.toUpper) := by
  simp only [pyUpper, pyTranslateDelete, pyWhitespaceDel_contains, String.toList]

/-- Closed form of `get_nth_previous`: an assertion failure below level
1, and otherwise the entry of the backward chain at index `level - 1`,
with the sentinel standing in when the chain is shorter. -/
theorem get_nth_previous_closed : ∀ (t : SQLToken) (level : Int),
    t.get_nth_previous level
      = if 1 ≤ level then Except.ok (t.prevChain.getD (level - 1).toNat EmptyToken)
        else Except.error PyError.assertionError
  | SQLToken.mk d none n, level => by
    simp [SQLToken.get_nth_previous, SQLToken.prevChain, List.getD]
  | SQLToken.mk d (some p) n, level => by
    have ih := get_nth_previous_closed p (level - 1)
    by_cases h1 : 1 ≤ level
    · by_cases h2 : 1 < level
      · have h1' : 1 ≤ level - 1 := by omega
        have hidx : (level - 1).toNat = (level - 1 - 1).toNat + 1 := by omega
        simp only [SQLToken.get_nth_previous, if_pos h1, if_pos h2, ih, if_pos h1',
          SQLToken.prevChain, hidx, List.getD_cons_succ]
      · have : level = 1 := by omega
        subst this
        simp [SQLToken.get_nth_previous, SQLToken.prevChain]
    · simp [SQLToken.get_nth_previous, if_neg h1]

/-- `get_nth_previous(2)` is the predecessor's predecessor, or the
sentinel when the chain is exhausted; this is the step taken by the loop
of `left_expanded`. -/
theorem get_nth_previous_two : ∀ (t : SQLToken),
    t.get_nth_previous 2
      = Except.ok (match t with
          | SQLToken.mk _ none _ => EmptyToken
          | SQLToken.mk _ (some (SQLToken.mk _ none _)) _ => EmptyToken
          | SQLToken.mk _ (some (SQLToken.mk _ (some q) _)) _ => q)
  | SQLToken.mk d none n => by simp [SQLToken.get_nth_previous]
  | SQLToken.mk d (some (SQLToken.mk pd none pn)) n => by
    simp [SQLToken.get_nth_previous]
  | SQLToken.mk d (some (SQLToken.mk pd (some q) pn)) n => by
    simp [SQLToken.get_nth_previous]

/-- Closed form of the backward walk of `find_nearest_token`: the first
entry of the backward chain whose selected attribute is a target, with
the sentinel as fallback. -/
theorem findPrevMatch_closed (value_attribute : SQLToken → PyVal) (vs : List PyVal) :
    ∀ (t : SQLToken),
      t.findPrevMatch value_attribute vs
        = (t.prevChain.find? (fun x => decide (value_attribute x ∈ vs))).getD EmptyToken
  | SQLToken.mk d none n => by
    simp [SQLToken.findPrevMatch, SQLToken.prevChain]
  | SQLToken.mk d (some p) n => by
    have ih := findPrevMatch_closed value_attribute vs p
    by_cases h : value_attribute p ∈ vs
    · simp [SQLToken.findPrevMatch, SQLToken.prevChain, List.find?, h]
    · simp [SQLToken.findPrevMatch, SQLToken.prevChain, List.find?, h, ih]

/-- Closed form of the forward walk of `find_nearest_token`. -/
theorem findNextMatch_closed (value_attribute : SQLToken → PyVal) (vs : List PyVal) :
    ∀ (t : SQLToken),
      t.findNextMatch value_attribute vs
        = (t.nextChain.find? (fun x => decide (value_attribute x ∈ vs))).getD EmptyToken
  | SQLToken.mk d p none => by
    simp [SQLToken.findNextMatch, SQLToken.nextChain]
  | SQLToken.mk d p (some nx) => by
    have ih := findNextMatch_closed value_attribute vs nx
    by_cases h : value_attribute nx ∈ vs
    · simp [SQLToken.findNextMatch, SQLToken.nextChain, List.find?, h]
    · simp [SQLToken.findNextMatch, SQLToken.nextChain, List.find?, h, ih]

/-- The backward walk lands in the backward chain or on the sentinel. -/
theorem findPrevMatch_mem_or_empty (value_attribute : SQLToken → PyVal) (vs : List PyVal) :
    ∀ (t : SQLToken),
      t.findPrevMatch value_attribute vs ∈ t.prevChain
        ∨ t.findPrevMatch value_attribute vs = EmptyToken
  | SQLToken.mk d none n => Or.inr rfl
  | SQLToken.mk d (some p) n => by
    by_cases h : value_attribute p ∈ vs
    · left
      simp [SQLToken.findPrevMatch, SQLToken.prevChain, h]
    · rcases findPrevMatch_mem_or_empty value_attribute vs p with hm | he
      · left
        simp only [SQLToken.findPrevMatch, if_neg h, SQLToken.prevChain]
        exact List.mem_cons_of_mem _ hm
      · right
        simpa [SQLToken.findPrevMatch, if_neg h] using he

/-- The forward walk lands in the forward chain or on the sentinel. -/
theorem findNextMatch_mem_or_empty (value_attribute : SQLToken → PyVal) (vs : List PyVal) :
    ∀ (t : SQLToken),
      t.findNextMatch value_attribute vs ∈ t.nextChain
        ∨ t.findNextMatch value_attribute vs = EmptyToken
  | SQLToken.mk d p none => Or.inr rfl
  | SQLToken.mk d p (some nx) => by
    by_cases h : value_attribute nx ∈ vs
    · left
      simp [SQLToken.findNextMatch, SQLToken.nextChain, h]
    · rcases findNextMatch_mem_or_empty value_attribute vs nx with hm | he
      · left
        simp only [SQLToken.findNextMatch, if_neg h, SQLToken.nextChain]
        exact List.mem_cons_of_mem _ hm
      · right
        simpa [SQLToken.findNextMatch, if_neg h] using he

/-- Every member of the backward chain is structurally smaller than its
owner; a chain walk therefore cannot come back to where it started. -/
theorem sizeOf_lt_of_mem_prevChain : ∀ (t x : SQLToken), x ∈ t.prevChain → sizeOf x < sizeOf t
  | SQLToken.mk d none n, x, hx => by simp [SQLToken.prevChain] at hx
  | SQLToken.mk d (some p) n, x, hx => by
    simp only [SQLToken.prevChain, List.mem_cons] at hx
    rcases hx with rfl | hx
    · simp only [SQLToken.mk.sizeOf_spec, Option.some.sizeOf_spec]
      omega
    · have := sizeOf_lt_of_mem_prevChain p x hx
      simp only [SQLToken.mk.sizeOf_spec, Option.some.sizeOf_spec]
      omega

/-- Every member of the forward chain is structurally smaller than its
owner. -/
theorem sizeOf_lt_of_mem_nextChain : ∀ (t x : SQLToken), x ∈ t.nextChain → sizeOf x < sizeOf t
  | SQLToken.mk d p none, x, hx => by simp [SQLToken.nextChain] at hx
  | SQLToken.mk d p (some nx), x, hx => by
    simp only [SQLToken.nextChain, List.mem_cons] at hx
    rcases hx with rfl | hx
    · simp only [SQLToken.mk.sizeOf_spec, Option.some.sizeOf_spec]
      omega
    · have := sizeOf_lt_of_mem_nextChain nx x hx
      simp only [SQLToken.mk.sizeOf_spec, Option.some.sizeOf_spec]
      omega

/-- Splitting a list that holds no separator yields that list alone
(stated with the accumulator generalised). -/
theorem pySplitChars_no_sep (sep : Char) :
    ∀ (l acc : List Char), sep ∉ l → pySplitChars sep acc l = [acc.reverse ++ l]
  | [], acc, _ => by simp [pySplitChars]
  | c :: rest, acc, h => by
    have hcs : ¬ c = sep := fun he => h (List.mem_cons.mpr (Or.inl he.symm))
    have hrest : sep ∉ rest := fun hm => h (List.mem_cons_of_mem _ hm)
    have hbeq : (c == sep) = false := by simp [hcs]
    simp only [pySplitChars, hbeq, Bool.false_eq_true, if_false]
    rw [pySplitChars_no_sep sep rest (c :: acc) hrest]
    simp

/-- Bool-level membership reading of `List.contains`. -/
theorem contains_false_iff (l : List Char) (c : Char) : l.contains c = false ↔ c ∉ l := by
  simp [List.contains, List.elem_eq_mem]

/-- Bool-level membership reading of `List.contains`, positive form. -/
theorem contains_true_iff (l : List Char) (c : Char) : l.contains c = true ↔ c ∈ l := by
  simp [List.contains, List.elem_eq_mem]

/-- C1: every token constructed from a raw lexer token has its
`previous_token` and `next_token` initialised to the sentinel, never to
an absent value; the parameterless-constructed sentinel alone has absent
link fields, and it additionally has empty value, all classification and
scope-role flags false, `subquery_level = 0` and an empty (absent) last
keyword. -/
theorem constructed_links_and_sentinel_defaults :
    (∀ (tok : RawToken) (index subquery_level : Int) (last_keyword : Option String),
      (SQLToken.init tok index subquery_level last_keyword).previous_token = some EmptyToken
      ∧ (SQLToken.init tok index subquery_level last_keyword).next_token = some EmptyToken)
    ∧ EmptyToken.previous_token = none
    ∧ EmptyToken.next_token = none
    ∧ EmptyToken.value = ""
    ∧ EmptyToken.is_keyword = false
    ∧ EmptyToken.is_name = false
    ∧ EmptyToken.is_punctuation = false
    ∧ EmptyToken.is_dot = false
    ∧ EmptyToken.is_wildcard = false
    ∧ EmptyToken.is_integer = false
    ∧ EmptyToken.is_float = false
    ∧ EmptyToken.is_comment = false
    ∧ EmptyToken.is_left_parenthesis = false
    ∧ EmptyToken.is_right_parenthesis = false
    ∧ EmptyToken.is_subquery_start = false
    ∧ EmptyToken.is_subquery_end = false
    ∧ EmptyToken.is_with_query_start = false
    ∧ EmptyToken.is_with_query_end = false
    ∧ EmptyToken.is_with_columns_start = false
    ∧ EmptyToken.is_with_columns_end = false
    ∧ EmptyToken.is_nested_function_start = false
    ∧ EmptyToken.is_nested_function_end = false
    ∧ EmptyToken.is_in_nested_function = false
    ∧ EmptyToken.is_column_definition_start = false
    ∧ EmptyToken.is_column_definition_end = false
    ∧ EmptyToken.subquery_level = 0
    ∧ EmptyToken.last_keyword = none :=
  ⟨fun _ _ _ _ => ⟨rfl, rfl⟩, rfl, rfl, rfl, rfl, rfl, rfl, rfl, rfl, rfl, rfl, rfl,
    rfl, rfl, rfl, rfl, rfl, rfl, rfl, rfl, rfl, rfl, rfl, rfl, rfl, rfl, rfl⟩

/-- C2: for every token, `find_nearest_token` with direction `"left"`
returns the first entry of the backward chain whose selected attribute
is among the target values (a single value is compared on its own), and
with direction `"right"` the first such entry of the forward chain; the
sentinel is returned when an absent link is reached with no match.  The
function is a total Lean function, so termination, absence of raising,
and identical results under repeated calls with the same arguments hold
by construction. -/
theorem find_nearest_token_first_match (t : SQLToken) (value : FindValue)
    (value_attribute : SQLToken → PyVal) :
    t.find_nearest_token value "left" value_attribute
      = (t.prevChain.find? (fun x => decide (value_attribute x ∈ value.toList))).getD EmptyToken
    ∧ t.find_nearest_token value "right" value_attribute
      = (t.nextChain.find? (fun x => decide (value_attribute x ∈ value.toList))).getD EmptyToken := by
  constructor
  · simp only [SQLToken.find_nearest_token]
    rw [if_pos (by rfl)]
    exact findPrevMatch_closed value_attribute value.toList t
  · simp only [SQLToken.find_nearest_token]
    rw [if_neg (by simp)]
    exact findNextMatch_closed value_attribute value.toList t

/-- C3: `get_nth_previous(level)` for `level ≥ 1` returns the level-th
predecessor when the backward chain is long enough and the sentinel
(never an absent value, never an exception) when an absent link is
reached first; calling it with `level < 1` fails the assertion instead
of returning a sentinel. -/
theorem get_nth_previous_spec (t : SQLToken) (level : Int) :
    t.get_nth_previous level
      = if 1 ≤ level then Except.ok (t.prevChain.getD (level - 1).toNat EmptyToken)
        else Except.error PyError.assertionError :=
  get_nth_previous_closed t level

/-- C4 counterexample: the claim says a constructed token's value never
has a leading or trailing backtick or double quote, but backticks are
stripped before double quotes, so a raw value wrapping backticks inside
double quotes keeps them: the raw token with text double-quote backtick
x backtick double-quote is stored with a backtick at both ends. -/
theorem value_quote_stripping_counterexample :
    (SQLToken.init rawQuotedBacktick 0 0 none).value.toList.head? = some backtick
    ∧ (SQLToken.init rawQuotedBacktick 0 0 none).value.toList.getLast? = some backtick := by
  constructor <;> rfl

/-- C4 amended: `__init__` strips all surrounding backticks, then all
surrounding double quotes, so a constructed token's value never has a
leading or trailing double-quote character; leading or trailing
backticks can survive only when the raw value wrapped them inside double
quotes. -/
theorem value_no_double_quote_ends (tok : RawToken) (index subquery_level : Int)
    (last_keyword : Option String) (c : Char) :
    ((SQLToken.init tok index subquery_level last_keyword).value.toList.head? = some c → c ≠ dquote)
    ∧ ((SQLToken.init tok index subquery_level last_keyword).value.toList.getLast? = some c → c ≠ dquote) := by
  constructor
  · intro h hc
    subst hc
    have hcontains := pyStripList_head?_not (pyStrip tok.value [backtick]).toList [dquote] dquote h
    simp [List.contains, List.elem] at hcontains
  · intro h hc
    subst hc
    have hcontains := pyStripList_getLast?_not (pyStrip tok.value [backtick]).toList [dquote] dquote h
    simp [List.contains, List.elem] at hcontains

/-- C4 amended, witness: the theorem applied to the raw token `al` at
both ends of its stored value. -/
theorem value_no_double_quote_ends_witness : ('a' : Char) ≠ dquote ∧ ('l' : Char) ≠ dquote :=
  ⟨(value_no_double_quote_ends rawAl 0 0 none 'a').1 rfl,
   (value_no_double_quote_ends rawAl 0 0 none 'l').2 rfl⟩

/-- C9: `normalized` is the value uppercased with all whitespace
characters (the whitespace predicate on characters: space, tab, carriage
return, newline — exactly the set `" \n\t\r"` the source deletes)
removed, and `last_keyword_normalized` applies the same normalisation to
`last_keyword`, returning the empty string when there is none. -/
theorem normalized_spec (t : SQLToken) :
    t.normalized = String.mk ((t.value.toList.filter (fun c => !c.isWhitespace)).map Char.toUpper)
    ∧ t.last_keyword_normalized
      = String.mk (((t.last_keyword.getD "").toList.filter (fun c => !c.isWhitespace)).map Char.toUpper) := by
  constructor
  · exact pyNormalize_eq t.value
  · unfold SQLToken.last_keyword_normalized
    cases h : t.last_keyword with
    | none => rfl
    | some lk =>
      dsimp only [Option.getD]
      by_cases he : lk = ""
      · subst he
        rfl
      · rw [if_neg (by simp [he])]
        exact pyNormalize_eq lk

/-- A token whose predecessor is absent or not a dot leaves the loop of
`left_expanded` immediately. -/
theorem left_expandedLoop_no_dot : ∀ (t : SQLToken) (value : String),
    (∀ p, t.previous_token = some p → p.is_dot = false) →
    t.left_expandedLoop value = value
  | SQLToken.mk _ none _, _, _ => rfl
  | SQLToken.mk _ (some (SQLToken.mk _ none _)) _, _, _ => rfl
  | SQLToken.mk d (some (SQLToken.mk pd (some q) pn)) n, value, h => by
    have hdot : pd.is_dot = false := h (SQLToken.mk pd (some q) pn) rfl
    simp only [SQLToken.left_expandedLoop, hdot, Bool.false_eq_true, if_false]

/-- C5 counterexample: the claim's round-trip clause fails for a
constructed token whose value keeps backticks (raw value wrapping
backticks inside double quotes): with no preceding dotted-name context,
`left_expanded` strips those backticks and differs from `value`. -/
theorem left_expanded_roundtrip_counterexample :
    (SQLToken.init rawQuotedBacktick 0 0 none).previous_token = some EmptyToken
    ∧ EmptyToken.is_dot = false
    ∧ (SQLToken.init rawQuotedBacktick 0 0 none).left_expanded
        ≠ (SQLToken.init rawQuotedBacktick 0 0 none).value := by
  refine ⟨rfl, rfl, by decide⟩

/-- C5 amended: `left_expanded` walks backward while the predecessor is
a dot, prepending each two-hops-back name and re-centering there, so on
the `c` token of the built token sequence of `a.b.c` it yields
`"a.b.c"`; and for a token with no preceding dotted-name context whose
value has no leading or trailing backtick or double-quote character it
equals the token's own value (the final backtick strip and the
double-quote strip of `str` make the unrestricted round-trip claim
false). -/
theorem left_expanded_spec :
    ((buildChain c5Entries).getD 4 EmptyToken).left_expanded = "a.b.c"
    ∧ (∀ (t : SQLToken),
        (∀ p, t.previous_token = some p → p.is_dot = false) →
        (∀ c, t.value.toList.head? = some c → c ≠ backtick ∧ c ≠ dquote) →
        (∀ c, t.value.toList.getLast? = some c → c ≠ backtick ∧ c ≠ dquote) →
        t.left_expanded = t.value) := by
  constructor
  · decide
  · intro t hdot hh hl
    have hstr : t.str = t.value := by
      unfold SQLToken.str
      exact pyStrip_eq_self t.value [dquote]
        (fun c hc => (contains_false_iff _ _).mpr (by simp [(hh c hc).2]))
        (fun c hc => (contains_false_iff _ _).mpr (by simp [(hl c hc).2]))
    unfold SQLToken.left_expanded
    rw [left_expandedLoop_no_dot t t.str hdot, hstr]
    exact pyStrip_eq_self t.value [backtick]
      (fun c hc => (contains_false_iff _ _).mpr (by simp [(hh c hc).1]))
      (fun c hc => (contains_false_iff _ _).mpr (by simp [(hl c hc).1]))

/-- C5 amended, witness: the round-trip clause applied to the
constructed token for the clean name `al`. -/
theorem left_expanded_spec_witness :
    (SQLToken.init rawAl 0 0 none).left_expanded = (SQLToken.init rawAl 0 0 none).value :=
  left_expanded_spec.2 (SQLToken.init rawAl 0 0 none)
    (fun p hp => by
      have hp' : some EmptyToken = some p := hp
      injection hp' with h
      rw [← h]
      rfl)
    (fun c hc => by
      have hc' : some 'a' = some c := hc
      injection hc' with h
      rw [← h]
      exact ⟨by decide, by decide⟩)
    (fun c hc => by
      have hc' : some 'l' = some c := hc
      injection hc' with h
      rw [← h]
      exact ⟨by decide, by decide⟩)

/-- C6 counterexample: the claim's rewrite-first-segment clause fails on
a dotless left-expanded value whose whole text is a mapped alias: the
implementation returns it unchanged while the spec reading rewrites its
single segment. -/
theorem table_prefixed_column_counterexample :
    (SQLToken.init rawAl 0 0 none).table_prefixed_column [("al", "orders")]
      ≠ tablePrefixedColumnSpecFn (SQLToken.init rawAl 0 0 none).left_expanded [("al", "orders")] := by
  intro h
  have h' : (Except.ok "al" : Except PyError String) = Except.ok "orders" := h
  injection h' with h2
  exact absurd h2 (by decide)

/-- C6 amended: when the left-expanded value contains a dot,
`table_prefixed_column` behaves exactly as the spec reading (rewrite
only the first dot-separated segment through the mapping, unresolved
aliases passing through; qualification-depth error); a dotless value is
returned unchanged, bypassing the mapping; the error is raised if and
only if the value has more than three dot-separated segments; `al.col`
with the alias map al to orders yields `orders.col`, and `a.b.c.d`
fails with the qualification-depth error. -/
theorem table_prefixed_column_amended (t : SQLToken) (table_aliases : List (String × String)) :
    ('.' ∈ t.left_expanded.toList →
      t.table_prefixed_column table_aliases
        = tablePrefixedColumnSpecFn t.left_expanded table_aliases)
    ∧ ('.' ∉ t.left_expanded.toList →
      t.table_prefixed_column table_aliases = Except.ok t.left_expanded)
    ∧ ((∃ e, t.table_prefixed_column table_aliases = Except.error e)
        ↔ (pySplit t.left_expanded '.').length > 3)
    ∧ (SQLToken.init rawAlCol 0 0 none).table_prefixed_column [("al", "orders")]
        = Except.ok "orders.col"
    ∧ (SQLToken.init rawAbcd 0 0 none).table_prefixed_column []
        = Except.error (PyError.valueError "Wrong columns name: a.b.c.d") := by
  refine ⟨?_, ?_, ?_, by rfl, by rfl⟩
  · intro h
    unfold SQLToken.table_prefixed_column tablePrefixedColumnSpecFn
    rw [if_pos ((contains_true_iff _ _).mpr h)]
  · intro h
    unfold SQLToken.table_prefixed_column
    rw [if_neg (fun hc => h ((contains_true_iff _ _).mp hc))]
  · by_cases hdot : '.' ∈ t.left_expanded.toList
    · unfold SQLToken.table_prefixed_column
      rw [if_pos ((contains_true_iff _ _).mpr hdot)]
      by_cases hlen : (pySplit t.left_expanded '.').length > 3
      · rw [if_pos hlen]
        exact ⟨fun _ => hlen, fun _ => ⟨_, rfl⟩⟩
      · rw [if_neg hlen]
        constructor
        · rintro ⟨e, he⟩
          cases hp : pySplit t.left_expanded '.' with
          | nil => rw [hp] at he; exact absurd he (by simp)
          | cons p0 rest => rw [hp] at he; exact absurd he (by simp)
        · intro hc
          exact absurd hc hlen
    · unfold SQLToken.table_prefixed_column
      rw [if_neg (fun hc => hdot ((contains_true_iff _ _).mp hc))]
      constructor
      · rintro ⟨e, he⟩
        exact absurd he (by simp)
      · intro hc
        unfold pySplit at hc
        rw [pySplitChars_no_sep '.' t.left_expanded.toList [] hdot] at hc
        simp at hc

/-- C6 amended, witness: the theorem applied to the constructed tokens
for `al.col` (dotted branch) and `al` (dotless branch). -/
theorem table_prefixed_column_amended_witness :
    (SQLToken.init rawAlCol 0 0 none).table_prefixed_column [("al", "orders")]
      = tablePrefixedColumnSpecFn (SQLToken.init rawAlCol 0 0 none).left_expanded [("al", "orders")]
    ∧ (SQLToken.init rawAl 0 0 none).table_prefixed_column [("al", "orders")]
      = Except.ok (SQLToken.init rawAl 0 0 none).left_expanded :=
  ⟨(table_prefixed_column_amended (SQLToken.init rawAlCol 0 0 none) [("al", "orders")]).1
      (by decide),
   (table_prefixed_column_amended (SQLToken.init rawAl 0 0 none) [("al", "orders")]).2.1
      (by decide)⟩

/-- C7: `is_alias_without_as` is `some true` exactly when both
neighbours exist, the next token's normalised value is a comma or
`FROM`, the previous token's normalised value is none of comma, dot,
opening parenthesis, `SELECT`, the normalised last keyword is `SELECT`,
and the previous token is not a comment; on the built token sequence of
`SELECT col alias FROM t` it is `some true` for the `alias` token and
`some false` for the `col` token. -/
theorem is_alias_without_as_iff :
    (∀ (t : SQLToken),
      t.is_alias_without_as = some true ↔
        ∃ nt pt, t.next_token = some nt ∧ t.previous_token = some pt
          ∧ nt.normalized ∈ ([",", "FROM"] : List String)
          ∧ pt.normalized ∉ ([",", ".", "(", "SELECT"] : List String)
          ∧ t.last_keyword_normalized = "SELECT"
          ∧ pt.is_comment = false)
    ∧ ((buildChain c7Entries).getD 2 EmptyToken).is_alias_without_as = some true
    ∧ ((buildChain c7Entries).getD 1 EmptyToken).is_alias_without_as = some false := by
  refine ⟨?_, by decide, by decide⟩
  intro t
  unfold SQLToken.is_alias_without_as
  constructor
  · intro h
    cases hn : t.next_token with
    | none => rw [hn] at h; exact absurd h (by simp)
    | some nt =>
      rw [hn] at h
      dsimp only at h
      by_cases ha : nt.normalized ∈ ([",", "FROM"] : List String)
      · rw [if_pos ha] at h
        cases hp : t.previous_token with
        | none => rw [hp] at h; exact absurd h (by simp)
        | some pt =>
          rw [hp] at h
          dsimp only at h
          simp only [Option.some.injEq, Bool.and_eq_true, decide_eq_true_eq,
            Bool.not_eq_true'] at h
          exact ⟨nt, pt, rfl, rfl, ha, h.1.1, h.1.2, h.2⟩
      · rw [if_neg ha] at h
        exact absurd h (by simp)
  · rintro ⟨nt, pt, hn, hp, ha, hb, hc, hd⟩
    rw [hn]
    dsimp only
    rw [if_pos ha, hp]
    dsimp only
    simp [hb, hc, hd]

/-- C8 counterexample: concatenating `stringified_token` over the built
token sequence of `SELECT a,b` does not reproduce `SELECT a,b`: the
first token (whose backward link is the sentinel) emits a leading space
and `b` (whose predecessor is the comma) emits one too. -/
theorem stringified_token_counterexample :
    String.join ((buildChain c8Entries).map SQLToken.stringified_token) ≠ "SELECT a,b" := by
  decide

/-- C8 amended: for a token with a present predecessor,
`stringified_token` emits the representation with no leading space
exactly when the token's normalised value is a closing parenthesis, dot
or comma, or the predecessor's normalised value is an opening
parenthesis or dot, or the token is an opening parenthesis after a
function of the ignore-list; otherwise one leading space.  Concatenating
over the built token sequence of `SELECT a,b` hence yields
`" SELECT a, b"` — the claimed exact reconstruction of `"SELECT a,b"`
fails by the leading space and the space after the comma. -/
theorem stringified_token_spec :
    (∀ (t prev : SQLToken), t.previous_token = some prev →
      t.stringified_token
        = (if t.normalized ∈ ([")", ".", ","] : List String)
              ∨ prev.normalized ∈ (["(", "."] : List String)
              ∨ (t.is_left_parenthesis = true ∧ prev.normalized ∈ FUNCTIONS_IGNORED)
           then t.str else " " ++ t.str))
    ∧ String.join ((buildChain c8Entries).map SQLToken.stringified_token) = " SELECT a, b" := by
  refine ⟨?_, by decide⟩
  intro t prev h
  unfold SQLToken.stringified_token
  rw [h]

/-- C8 amended, witness: the dichotomy applied to a token `b` whose
predecessor is the sentinel, whose empty normalised value forces the
leading space. -/
theorem stringified_token_spec_witness :
    (SQLToken.mk (mkData "b" 1) (some EmptyToken) (some EmptyToken)).stringified_token
      = " " ++ (SQLToken.mk (mkData "b" 1) (some EmptyToken) (some EmptyToken)).str :=
  (stringified_token_spec.1 (SQLToken.mk (mkData "b" 1) (some EmptyToken) (some EmptyToken))
    EmptyToken rfl).trans (by decide)

/-- The backward walk of `find_nearest_token` cannot return its
starting token unless that token is the sentinel. -/
theorem findPrevMatch_ne (value_attribute : SQLToken → PyVal) (vs : List PyVal)
    (t : SQLToken) (hne : t ≠ EmptyToken) : t.findPrevMatch value_attribute vs ≠ t := by
  intro heq
  rcases findPrevMatch_mem_or_empty value_attribute vs t with hm | he
  · rw [heq] at hm
    exact absurd (sizeOf_lt_of_mem_prevChain t t hm) (lt_irrefl _)
  · rw [heq] at he
    exact hne he

/-- The forward walk of `find_nearest_token` cannot return its starting
token unless that token is the sentinel. -/
theorem findNextMatch_ne (value_attribute : SQLToken → PyVal) (vs : List PyVal)
    (t : SQLToken) (hne : t ≠ EmptyToken) : t.findNextMatch value_attribute vs ≠ t := by
  intro heq
  rcases findNextMatch_mem_or_empty value_attribute vs t with hm | he
  · rw [heq] at hm
    exact absurd (sizeOf_lt_of_mem_nextChain t t hm) (lt_irrefl _)
  · rw [heq] at he
    exact hne he

/-- C10 counterexample: the claim says a direction other than `"right"`
is treated as `"left"`, but on a token with matching neighbours on both
sides the direction `"up"` walks the forward chain, not the backward
one. -/
theorem find_nearest_token_direction_counterexample :
    tMid.find_nearest_token (FindValue.single (PyVal.str "v")) "up" attrValue
      ≠ tMid.find_nearest_token (FindValue.single (PyVal.str "v")) "left" attrValue := by
  intro h
  have h' : tRightNbr = tLeftNbr := h
  injection h' with hd hp hn
  exact absurd hd (by decide)

/-- C10 amended: `find_nearest_token` begins its comparison at the
immediate neighbour, so for a non-sentinel receiver it never returns the
token it was invoked on, even when that token's own selected attribute
matches; and any direction argument other than `"left"` (not other than
`"right"`) walks the forward chain, behaving exactly like `"right"`. -/
theorem find_nearest_token_direction_spec (t : SQLToken) (value : FindValue) (dir : String)
    (value_attribute : SQLToken → PyVal) :
    (t ≠ EmptyToken → t.find_nearest_token value dir value_attribute ≠ t)
    ∧ (dir ≠ "left" →
        t.find_nearest_token value dir value_attribute
          = t.find_nearest_token value "right" value_attribute) := by
  constructor
  · intro hne
    unfold SQLToken.find_nearest_token
    by_cases hd : (dir == "left") = true
    · rw [if_pos hd]
      exact findPrevMatch_ne value_attribute value.toList t hne
    · rw [if_neg hd]
      exact findNextMatch_ne value_attribute value.toList t hne
  · intro hd
    unfold SQLToken.find_nearest_token
    rw [if_neg (by simp [hd]), if_neg (by simp)]

/-- C10 amended, witness: the theorem applied to the middle token of the
three-token chain with the unused direction `"up"`. -/
theorem find_nearest_token_direction_spec_witness :
    tMid.find_nearest_token (FindValue.single (PyVal.str "v")) "up" attrValue ≠ tMid
    ∧ tMid.find_nearest_token (FindValue.single (PyVal.str "v")) "up" attrValue
        = tMid.find_nearest_token (FindValue.single (PyVal.str "v")) "right" attrValue :=
  ⟨(find_nearest_token_direction_spec tMid (FindValue.single (PyVal.str "v")) "up" attrValue).1
      (by
        intro h
        injection h with hd hp hn
        exact absurd hd (by decide)),
   (find_nearest_token_direction_spec tMid (FindValue.single (PyVal.str "v")) "up" attrValue).2
      (by decide)⟩
